import Mathlib

/-!
Verification of the tiered inference orchestration engine of the
ai-project-snapshot repository.

The repository ships the model layer (src/models/base_model.py,
smollm3_backup.py, smolvlm2.py), the GUI layer (src/gui/...), and tests
(tests/test_engine.py).  The orchestration core itself, src/core/engine.py
(class NovaEngine with should_use_heavy_thinking, process_query, get_stats,
load_model, set_heavy_thinking...), is referenced by the tests and the GUI but
its source is not in the snapshot; where a definition embeds that missing
module it is marked as modelled from the specification.  Everything else is a
shallow embedding of the Python source: external effectful calls (tokenizer
loading, model loading, torch compilation, inference) are passed in as
explicit outcome values of type Except, and object attributes become record
fields.
-/

/-! ## Escalation policy (spec section 4.2)

Modelled from the spec: NovaEngine.should_use_heavy_thinking is in the missing
src/core/engine.py.  The spec says: escalate iff enabled AND (whitespace
word count at or above wordThreshold OR the input contains a marker phrase as
a case-insensitive substring). -/

/-- EscalationConfig from the data model (spec section 3):
enabled flag, word threshold, marker phrase set. -/
structure EscalationConfig where
  enabled : Bool
  wordThreshold : Nat
  markerPhrases : List String
  deriving Repr, DecidableEq

/-- Maximal runs of non-whitespace characters, accumulator-passing helper of
pyWords. -/
def wordsAux : List Char → List Char → List (List Char)
  | [], acc => if acc.isEmpty then [] else [acc.reverse]
  | c :: rest, acc =>
    if c.isWhitespace then
      if acc.isEmpty then wordsAux rest [] else acc.reverse :: wordsAux rest []
    else wordsAux rest (c :: acc)

/-- Whitespace-delimited tokenization as Python str.split of no arguments:
the maximal whitespace-free runs, with no empty pieces. -/
def pyWords (text : String) : List String :=
  (wordsAux text.data []).map List.asString

/-- The whitespace-delimited word count of a text. -/
def wordCount (text : String) : Nat :=
  (pyWords text).length

/-- Per-character lower-casing, as Python str.lower on the texts at hand. -/
def lowerChars (l : List Char) : List Char :=
  l.map Char.toLower

/-- Case-insensitive substring test: the lower-cased marker occurs inside the
lower-cased text. -/
def containsMarker (text marker : String) : Bool :=
  decide (lowerChars marker.data <:+: lowerChars text.data)

/-- Modelled from the spec: NovaEngine.should_use_heavy_thinking
(src/core/engine.py is missing from the snapshot).
Escalate iff enabled and (word count at or above the threshold, or some
configured marker phrase occurs case-insensitively in the text). -/
def should_use_heavy_thinking (cfg : EscalationConfig) (text : String) : Bool :=
  cfg.enabled &&
    (cfg.wordThreshold ≤ wordCount text ||
      cfg.markerPhrases.any (fun m => containsMarker text m))

/-! ## Statistics (spec sections 4.4 and 6)

Modelled from the spec: NovaEngine.get_stats is in the missing
src/core/engine.py.  The snapshot read exposes totalQueries,
heavyThinkingCalls and heavyThinkingRate, the last equal to
escalationCount / totalQueries and 0 when totalQueries is 0. -/

/-- Mutable counters of the engine relevant to statistics. -/
structure StatsState where
  totalQueries : Nat
  escalationCount : Nat
  deriving Repr, DecidableEq

/-- Snapshot returned by getStats. -/
structure StatsSnapshot where
  totalQueries : Nat
  heavyThinkingCalls : Nat
  heavyThinkingRate : ℚ
  deriving Repr, DecidableEq

/-- Modelled from the spec: NovaEngine.get_stats (src/core/engine.py is
missing from the snapshot).  The rate is escalationCount / totalQueries,
defined as 0 when totalQueries is 0. -/
def get_stats (s : StatsState) : StatsSnapshot :=
  { totalQueries := s.totalQueries
    heavyThinkingCalls := s.escalationCount
    heavyThinkingRate :=
      if s.totalQueries = 0 then 0
      else (s.escalationCount : ℚ) / (s.totalQueries : ℚ) }

/-! ## Model layer (src/models/base_model.py, smollm3_backup.py, smolvlm2.py)

These classes are present in the snapshot and are embedded directly.  The
effectful huggingface / torch calls (AutoTokenizer.from_pretrained,
AutoModelForCausalLM.from_pretrained, torch.compile, AutoProcessor
.from_pretrained, and the tokenize/generate/decode pipeline) are abstracted
into explicit outcome arguments: an Except value that is an error exactly when
the Python call would raise.  Loaded artifacts are abstracted as Nat handles.
Python attribute assignment persists even when a later statement raises, and
the embedding reproduces that. -/

/-- Attribute state of BaseModel (base_model.py, constructor lines 11-17). -/
structure BaseModelState where
  model_name : String
  device : String
  quantization : Option String
  model : Option Nat
  tokenizer : Option Nat
  is_loaded : Bool
  deriving Repr, DecidableEq

/-- BaseModel.load (base_model.py lines 19-82).  The whole body is inside
try/except returning False on any exception; assignments made before a raise
persist.  tokOut is the outcome of AutoTokenizer.from_pretrained, mdlOut of
AutoModelForCausalLM.from_pretrained; compileAvailable is the condition
hasattr(torch, compile) and the disable env var being unset, and compileOut
the outcome of torch.compile, whose failure only logs a warning (inner
try/except, line 70) and keeps the uncompiled model.  Returns the Python
return value together with the post-call attribute state. -/
def BaseModel.load (s : BaseModelState) (tokOut mdlOut : Except String Nat)
    (compileAvailable : Bool) (compileOut : Except String Nat) :
    Bool × BaseModelState :=
  match tokOut with
  | .error _ => (false, s)
  | .ok t =>
    let s1 := { s with tokenizer := some t }
    match mdlOut with
    | .error _ => (false, s1)
    | .ok m =>
      let s2 := { s1 with model := some m }
      let s3 :=
        if compileAvailable then
          match compileOut with
          | .ok c => { s2 with model := some c }
          | .error _ => s2
        else s2
      (true, { s3 with is_loaded := true })

/-- Attribute state of SmolVLM2 (smolvlm2.py): the BaseModel attributes plus
the processor set in its constructor. -/
structure SmolVLM2State where
  base : BaseModelState
  processor : Option Nat
  deriving Repr, DecidableEq

/-- SmolVLM2.load (smolvlm2.py lines 18-27).  Inside try/except returning
False on any exception: import AutoProcessor (importOk false means the import
raised), call super().load() and return False if it returned False, then load
the processor (procOut the outcome of AutoProcessor.from_pretrained) and
return True.  Note that a processor failure happens after super().load() has
already set is_loaded to True, and nothing resets it. -/
def SmolVLM2.load (s : SmolVLM2State) (importOk : Bool)
    (tokOut mdlOut : Except String Nat)
    (compileAvailable : Bool) (compileOut : Except String Nat)
    (procOut : Except String Nat) : Bool × SmolVLM2State :=
  if !importOk then (false, s)
  else
    match BaseModel.load s.base tokOut mdlOut compileAvailable compileOut with
    | (false, b) => (false, { s with base := b })
    | (true, b) =>
      match procOut with
      | .error _ => (false, { s with base := b })
      | .ok p => (true, { base := b, processor := some p })

/-- BaseModel.unload (base_model.py lines 88-93): only when self.model is
truthy (None is falsy) are model and tokenizer deleted and is_loaded cleared;
otherwise the method is a no-op. -/
def BaseModel.unload (s : BaseModelState) : BaseModelState :=
  match s.model with
  | some _ => { s with model := none, tokenizer := none, is_loaded := false }
  | none => s

/-- Outcome of the external tokenize / model.generate / decode pipeline used
by a generate method: ok carries the decoded text (before .strip()), raised
carries str(e) of the exception the pipeline raised. -/
inductive GenOutcome where
  | ok (decoded : String)
  | raised (msg : String)
  deriving Repr, DecidableEq

/-- SmolLM3.generate (smollm3_backup.py lines 16-55): when the model is not
loaded it raises RuntimeError, embedded as Except.error; otherwise the
try/except body either returns the decoded response stripped, or catches any
exception and returns the string Error: str(e) as a normal return value. -/
def SmolLM3.generate (s : BaseModelState) (outcome : GenOutcome) :
    Except String String :=
  if !s.is_loaded then .error "Model not loaded"
  else
    match outcome with
    | .ok decoded => .ok decoded.trim
    | .raised msg => .ok ("Error: " ++ msg)

/-- SmolVLM2.generate (smolvlm2.py lines 29-53): same shape as
SmolLM3.generate — RuntimeError when not loaded, otherwise the caught-error
string or the stripped decoded response. -/
def SmolVLM2.generate (s : SmolVLM2State) (outcome : GenOutcome) :
    Except String String :=
  if !s.base.is_loaded then .error "Model not loaded"
  else
    match outcome with
    | .ok decoded => .ok decoded.trim
    | .raised msg => .ok ("Error: " ++ msg)

/-! ## Orchestration engine (spec sections 3, 4.3, 6, 7)

Modelled from the spec: NovaEngine.process_query, NovaEngine.load_model and
the engine state live in the missing src/core/engine.py.  Tier inference is
abstracted as functions from the query text to an Except value that is an
error exactly when the tier raised a generation error. -/

/-- The two engine models: the fast tier (smollm3) and the deep tier
(llama31). -/
inductive ModelId where
  | smollm3
  | llama31
  deriving Repr, DecidableEq

/-- Query modes accepted by processQuery. -/
inductive Mode where
  | auto
  | fast
  | deep
  | legacy
  deriving Repr, DecidableEq

/-- Structured errors of the error handling design (spec section 7). -/
inductive QueryError where
  | validationError
  | modelNotReady
  | generationFailure (msg : String)
  deriving Repr, DecidableEq

/-- QueryResult (spec section 3): response, the tiers actually executed, the
escalation flag, the degraded-escalation flag and an optional structured
error. -/
structure QueryResult where
  response : Option String
  modelChain : List ModelId
  usedEscalation : Bool
  degradedEscalation : Bool
  error : Option QueryError
  deriving Repr, DecidableEq

/-- Engine state: which models are Ready, the current Legacy primary, the
escalation configuration and the counters. -/
structure EngineState where
  smollm3_loaded : Bool
  llama31_loaded : Bool
  primary : ModelId
  escalation : EscalationConfig
  stats : StatsState
  deriving Repr, DecidableEq

/-- Whether a text is empty or whitespace-only (Python text.strip() empty). -/
def isBlank (text : String) : Bool :=
  text.data.all Char.isWhitespace

/-- Whether the given model is Ready in the given engine state. -/
def EngineState.ready (st : EngineState) (mid : ModelId) : Bool :=
  match mid with
  | .smollm3 => st.smollm3_loaded
  | .llama31 => st.llama31_loaded

/-- Modelled from the spec: NovaEngine.load_model (src/core/engine.py is
missing from the snapshot).  loadModel(modelId) loads the named model and
returns success; it mutates only that model's lifecycle state and never
touches the counters.  The outcome argument is the result the underlying
model load produced. -/
def load_model (st : EngineState) (mid : ModelId) (outcome : Bool) :
    Bool × EngineState :=
  match mid with
  | .smollm3 => (outcome, { st with smollm3_loaded := outcome })
  | .llama31 => (outcome, { st with llama31_loaded := outcome })

/-- Turn a tier generation outcome into the response/error fields of a
QueryResult. -/
def tierFields (g : Except String String) : Option String × Option QueryError :=
  match g with
  | .ok r => (some r, none)
  | .error e => (none, some (.generationFailure e))

/-- Run a single tier for a non-escalated request: fail with ModelNotReady if
the tier is not Ready, otherwise invoke its generate and wrap any generation
error as a structured QueryResult error. -/
def runSingleTier (st : EngineState) (mid : ModelId)
    (gen : String → Except String String) (text : String) : QueryResult :=
  if !st.ready mid then
    { response := none, modelChain := [], usedEscalation := false,
      degradedEscalation := false, error := some .modelNotReady }
  else
    let (resp, err) := tierFields (gen text)
    { response := resp, modelChain := [mid], usedEscalation := false,
      degradedEscalation := false, error := err }

/-- Modelled from the spec: NovaEngine.process_query (src/core/engine.py is
missing from the snapshot), following spec section 4.3.
Empty/whitespace-only text is rejected with ValidationError before any tier
is touched and before any counter increments.  An accepted request increments
totalQueries exactly once.  fast invokes the fast tier only; deep invokes the
deep tier only and fails ModelNotReady when it is not Ready, never
substituting the fast tier; legacy invokes the current primary.  auto
evaluates the escalation policy on the original text: when it triggers and
the deep tier is Ready, the deep tier is invoked (latency-optimized default:
the fast call is skipped), usedEscalation is true and escalationCount is
incremented; when it triggers but the deep tier is not Ready, the request
falls back to the fast tier with usedEscalation false and the distinct
degradedEscalation flag set; when it does not trigger, the fast tier serves
the request.  modelChain lists the tiers actually executed.  Generation
errors are returned in the error field, never propagated. -/
def process_query (st : EngineState)
    (fastGen deepGen : String → Except String String)
    (text : String) (mode : Mode) : QueryResult × EngineState :=
  if isBlank text then
    ({ response := none, modelChain := [], usedEscalation := false,
       degradedEscalation := false, error := some .validationError }, st)
  else
    let st1 := { st with stats :=
      { st.stats with totalQueries := st.stats.totalQueries + 1 } }
    match mode with
    | .fast => (runSingleTier st1 .smollm3 fastGen text, st1)
    | .deep => (runSingleTier st1 .llama31 deepGen text, st1)
    | .legacy =>
      let gen := match st1.primary with
        | .smollm3 => fastGen
        | .llama31 => deepGen
      (runSingleTier st1 st1.primary gen text, st1)
    | .auto =>
      if should_use_heavy_thinking st1.escalation text then
        if st1.llama31_loaded then
          let st2 := { st1 with stats :=
            { st1.stats with escalationCount := st1.stats.escalationCount + 1 } }
          let (resp, err) := tierFields (deepGen text)
          ({ response := resp, modelChain := [.llama31],
             usedEscalation := true, degradedEscalation := false,
             error := err }, st2)
        else
          let r := runSingleTier st1 .smollm3 fastGen text
          ({ r with degradedEscalation := true }, st1)
      else
        (runSingleTier st1 .smollm3 fastGen text, st1)

/-! ## Background model loading (src/gui/main_window.py lines 16-37)

ModelLoadThread.run is in the snapshot and is embedded directly as the
sequence of Qt signal emissions it performs, driven by the outcomes of the
two engine.load_model calls (booleans, per the loadModel contract) and of
engine.initialize_rag (which may raise; the surrounding try/except turns an
exception into a finished(False, ...) emission). -/

/-- A signal emission of ModelLoadThread: progress(msg) or
finished(success, msg). -/
inductive LoadEvent where
  | progress (msg : String)
  | finishedResult (success : Bool) (msg : String)
  deriving Repr, DecidableEq

/-- Outcomes of the external calls made by ModelLoadThread.run. -/
structure LoadOutcomes where
  smollm3_ok : Bool
  llama31_ok : Bool
  ragRaised : Option String
  deriving Repr, DecidableEq

/-- ModelLoadThread.run (main_window.py lines 24-37): load smollm3 and emit
finished(False) if it fails; load llama31 and on failure only log a warning
and continue; initialize RAG and emit finished(True); any exception is caught
and emitted as finished(False, Error: str(e)). -/
def ModelLoadThread.run (o : LoadOutcomes) : List LoadEvent :=
  if !o.smollm3_ok then
    [.progress "Loading SmolLM3-3B (CPU)...",
     .finishedResult false "Failed to load SmolLM3"]
  else
    [.progress "Loading SmolLM3-3B (CPU)...",
     .progress "Loading Llama-3.1-8B (GPU)...",
     .progress "Initializing RAG system..."] ++
    (match o.ragRaised with
     | some e => [.finishedResult false ("Error: " ++ e)]
     | none => [.finishedResult true "All systems ready"])

/-! ## Per-model generate serialization (spec section 5)

Modelled from the spec: the dispatcher and its per-model lock live in the
missing src/core/engine.py.  The spec requires that calls into the same
model's generate be serialized by a per-model mutual-exclusion lock acquired
for the duration of generate and released on every exit path including
error.  We model the dispatch of N threads against one model as a transition
system: a thread acquires the free lock to enter generate, and leaves
generate (successfully or with an error) releasing the lock in the same
step, which is exactly the release-on-every-exit-path discipline. -/

/-- Phase of one dispatching thread with respect to one model: not yet in
generate, inside generate (holding the model lock), or finished (the Bool
telling success from error exit). -/
inductive ThreadPhase where
  | idle
  | inGenerate
  | done (ok : Bool)
  deriving Repr, DecidableEq

/-- Global state of the per-model lock discipline: the lock owner (none when
free) and each thread's phase. -/
structure DispatchState where
  owner : Option Nat
  phase : Nat → ThreadPhase

/-- Initial state: lock free, every thread outside generate. -/
def initialDispatch : DispatchState :=
  { owner := none, phase := fun _ => .idle }

/-- Transitions of the per-model lock discipline: acquire takes the free
lock and enters generate; leave exits generate — on the success path or the
error path alike — and releases the lock in the same step. -/
inductive DispatchStep : DispatchState → DispatchState → Prop where
  | acquire (s : DispatchState) (t : Nat) :
      s.owner = none → s.phase t = .idle →
      DispatchStep s
        { owner := some t, phase := Function.update s.phase t .inGenerate }
  | leave (s : DispatchState) (t : Nat) (ok : Bool) :
      s.phase t = .inGenerate →
      DispatchStep s
        { owner := none, phase := Function.update s.phase t (.done ok) }

/-- A state reachable from the initial state by dispatch steps. -/
def DispatchReachable (s : DispatchState) : Prop :=
  Relation.ReflTransGen DispatchStep initialDispatch s

/-- The lock invariant: a thread is inside generate exactly when it owns the
per-model lock. -/
def DispatchInv (s : DispatchState) : Prop :=
  ∀ t, s.owner = some t ↔ s.phase t = .inGenerate

lemma dispatchInv_initial : DispatchInv initialDispatch := by
  intro t
  simp [initialDispatch]

lemma dispatchInv_step {s s2 : DispatchState}
    (h : DispatchStep s s2) (hinv : DispatchInv s) : DispatchInv s2 := by
  cases h with
  | acquire t hown hidle =>
    intro u
    dsimp only
    rcases eq_or_ne u t with rfl | hne
    · simp [Function.update_same]
    · rw [Function.update_noteq hne]
      simp only [Option.some_inj]
      constructor
      · intro h
        exact absurd h.symm hne
      · intro h
        have := (hinv u).mpr h
        rw [hown] at this
        exact absurd this (by simp)
  | leave t ok hgen =>
    intro u
    dsimp only
    constructor
    · intro h
      exact absurd h (by simp)
    · intro h
      rcases eq_or_ne u t with rfl | hne
      · rw [Function.update_same] at h
        exact absurd h (by simp)
      · rw [Function.update_noteq hne] at h
        have h1 := (hinv u).mpr h
        have h2 := (hinv t).mpr hgen
        rw [h1] at h2
        exact absurd (Option.some_inj.mp h2) hne

lemma dispatchInv_reachable {s : DispatchState}
    (h : DispatchReachable s) : DispatchInv s := by
  induction h with
  | refl => exact dispatchInv_initial
  | tail _ hstep ih => exact dispatchInv_step hstep ih

/-- The concrete state after thread 0 acquires the lock from the initial
state; used to exercise the mutual-exclusion theorem. -/
def dispatchAfterAcquire : DispatchState :=
  { owner := some 0, phase := Function.update initialDispatch.phase 0 .inGenerate }

/-! ## Concrete fixtures used by the witnesses -/

/-- A fresh BaseModel attribute state as built by the constructor. -/
def baseFresh : BaseModelState :=
  { model_name := "HuggingFaceTB/SmolLM3-3B", device := "cpu",
    quantization := none, model := none, tokenizer := none, is_loaded := false }

/-- A loaded fast-tier model state. -/
def baseLoaded : BaseModelState :=
  { model_name := "HuggingFaceTB/SmolLM3-3B", device := "cpu",
    quantization := none, model := some 2, tokenizer := some 1,
    is_loaded := true }

/-- A fresh SmolVLM2 attribute state as built by the constructor. -/
def vlmFresh : SmolVLM2State :=
  { base := { model_name := "HuggingFaceTB/SmolVLM2", device := "cuda",
              quantization := some "4bit", model := none, tokenizer := none,
              is_loaded := false },
    processor := none }

/-- Engine state with both tiers Ready and the default-style escalation
configuration. -/
def stBoth : EngineState :=
  { smollm3_loaded := true, llama31_loaded := true, primary := .smollm3,
    escalation := { enabled := true, wordThreshold := 3,
                    markerPhrases := ["explain in detail"] },
    stats := { totalQueries := 0, escalationCount := 0 } }

/-- Engine state with the deep tier unavailable. -/
def stFastOnly : EngineState :=
  { stBoth with llama31_loaded := false }

/-- A fast tier that always answers. -/
def fastGen0 : String → Except String String :=
  fun _ => Except.ok "quick answer"

/-- A deep tier that always answers. -/
def deepGen0 : String → Except String String :=
  fun _ => Except.ok "detailed answer"

/-- A tier whose inference raises. -/
def failGen0 : String → Except String String :=
  fun _ => Except.error "CUDA out of memory"

/-! ## Claim theorems -/

/-- C1: the escalation decision should_use_heavy_thinking, applied in Auto
mode, returns true iff escalation is enabled and (the whitespace-delimited
word count is at least wordThreshold — at-least, not strictly-greater — or
the text contains some configured marker phrase as a case-insensitive
substring); when escalation is disabled the result is false for every input
regardless of word count or markers. -/
theorem escalation_decision_spec (cfg : EscalationConfig) (text : String) :
    (should_use_heavy_thinking cfg text = true ↔
      cfg.enabled = true ∧
        (cfg.wordThreshold ≤ wordCount text ∨
          ∃ m ∈ cfg.markerPhrases, containsMarker text m = true)) ∧
    (cfg.enabled = false → should_use_heavy_thinking cfg text = false) := by
  constructor
  · simp [should_use_heavy_thinking, List.any_eq_true]
  · intro h
    simp [should_use_heavy_thinking, h]

/-- Witness for C1: a one-word input containing a configured marker phrase
escalates even though the word count is below the threshold, and the same
input with escalation disabled does not. -/
theorem escalation_decision_spec_witness :
    wordCount "ExplainInDetail" = 1 ∧
    should_use_heavy_thinking ⟨true, 5, ["detail"]⟩ "ExplainInDetail" = true ∧
    should_use_heavy_thinking ⟨false, 5, ["detail"]⟩ "ExplainInDetail" = false :=
  ⟨by decide,
   (escalation_decision_spec ⟨true, 5, ["detail"]⟩ "ExplainInDetail").1.mpr
     ⟨rfl, Or.inr ⟨"detail", by decide, by decide⟩⟩,
   (escalation_decision_spec ⟨false, 5, ["detail"]⟩ "ExplainInDetail").2 rfl⟩

/-- C8: getStats reports heavyThinkingRate equal to escalationCount divided
by totalQueries computed exactly, and equal to 0 when totalQueries is 0, so
the rate never divides by zero; with k counted queries of which e escalated
the reported rate is e / k. -/
theorem get_stats_rate_exact (s : StatsState) (k e : Nat)
    (hk : s.totalQueries = k) (he : s.escalationCount = e) :
    (get_stats s).totalQueries = k ∧
    (get_stats s).heavyThinkingCalls = e ∧
    (get_stats s).heavyThinkingRate = (if k = 0 then 0 else (e : ℚ) / k) := by
  subst hk
  subst he
  exact ⟨rfl, rfl, rfl⟩

/-- Witness for C8 at k = 4, e = 1, and the k = 0 zero-rate case. -/
theorem get_stats_rate_exact_witness :
    ((get_stats ⟨4, 1⟩).heavyThinkingRate = (if 4 = 0 then 0 else ((1 : ℚ)) / 4) ∧
      (get_stats ⟨4, 1⟩).heavyThinkingRate = 1 / 4) ∧
    ((get_stats ⟨0, 0⟩).heavyThinkingRate = (if 0 = 0 then 0 else ((0 : ℚ)) / 0) ∧
      (get_stats ⟨0, 0⟩).heavyThinkingRate = 0) :=
  ⟨⟨(get_stats_rate_exact ⟨4, 1⟩ 4 1 rfl rfl).2.2, by norm_num [get_stats]⟩,
   ⟨(get_stats_rate_exact ⟨0, 0⟩ 0 0 rfl rfl).2.2, by norm_num [get_stats]⟩⟩

/-- C10: on a BaseModel whose model attribute is None, unload returns
without raising and leaves every attribute — model, tokenizer, is_loaded,
model_name, device, quantization — unchanged. -/
theorem unload_noop_when_model_none (s : BaseModelState) (h : s.model = none) :
    BaseModel.unload s = s ∧
    (BaseModel.unload s).model_name = s.model_name ∧
    (BaseModel.unload s).device = s.device ∧
    (BaseModel.unload s).quantization = s.quantization ∧
    (BaseModel.unload s).model = s.model ∧
    (BaseModel.unload s).tokenizer = s.tokenizer ∧
    (BaseModel.unload s).is_loaded = s.is_loaded := by
  have heq : BaseModel.unload s = s := by
    unfold BaseModel.unload
    rw [h]
  rw [heq]
  exact ⟨rfl, rfl, rfl, rfl, rfl, rfl, rfl⟩

/-- Witness for C10 on the freshly constructed state. -/
theorem unload_noop_when_model_none_witness :
    baseFresh.model = none ∧ BaseModel.unload baseFresh = baseFresh :=
  ⟨rfl, (unload_noop_when_model_none baseFresh rfl).1⟩

/-- C9: in every reachable state of the per-model lock discipline, no two
threads are inside the same model's generate at once — the per-model lock is
held for the whole generate and released on every exit path, so a finished
thread (successful or error exit) no longer holds the lock. -/
theorem generate_mutual_exclusion (s : DispatchState)
    (hs : DispatchReachable s) :
    (∀ t1 t2, s.phase t1 = .inGenerate → s.phase t2 = .inGenerate → t1 = t2) ∧
    (∀ t b, s.phase t = .done b → s.owner ≠ some t) := by
  have hinv := dispatchInv_reachable hs
  constructor
  · intro t1 t2 h1 h2
    have e1 := (hinv t1).mpr h1
    have e2 := (hinv t2).mpr h2
    rw [e1] at e2
    exact Option.some_inj.mp e2
  · intro t b hdone hown
    have h2 := (hinv t).mp hown
    rw [hdone] at h2
    exact ThreadPhase.noConfusion h2

/-- Witness for C9 at the concrete reachable state in which thread 0 holds
the lock inside generate. -/
theorem generate_mutual_exclusion_witness :
    DispatchReachable dispatchAfterAcquire ∧
    dispatchAfterAcquire.phase 0 = .inGenerate ∧ (0 : Nat) = 0 := by
  have hreach : DispatchReachable dispatchAfterAcquire :=
    Relation.ReflTransGen.single (DispatchStep.acquire initialDispatch 0 rfl rfl)
  have hphase : dispatchAfterAcquire.phase 0 = .inGenerate := by
    simp [dispatchAfterAcquire]
  exact ⟨hreach, hphase,
    (generate_mutual_exclusion dispatchAfterAcquire hreach).1 0 0 hphase hphase⟩

/-- C4: a request whose text is empty or whitespace-only is rejected with
ValidationError before any tier is invoked (the model chain is empty), and
the engine state — in particular totalQueries — is unchanged. -/
theorem blank_query_rejected (st : EngineState)
    (fastGen deepGen : String → Except String String)
    (text : String) (mode : Mode) (h : isBlank text = true) :
    (process_query st fastGen deepGen text mode).1.error =
      some .validationError ∧
    (process_query st fastGen deepGen text mode).1.modelChain = [] ∧
    (process_query st fastGen deepGen text mode).1.response = none ∧
    (process_query st fastGen deepGen text mode).2 = st ∧
    (process_query st fastGen deepGen text mode).2.stats.totalQueries =
      st.stats.totalQueries := by
  simp [process_query, h]

/-- Witness for C4 on the empty and on a whitespace-only query. -/
theorem blank_query_rejected_witness :
    (isBlank "" = true ∧
      (process_query stBoth fastGen0 deepGen0 "" .auto).1.error =
        some .validationError ∧
      (process_query stBoth fastGen0 deepGen0 "" .auto).2.stats.totalQueries =
        stBoth.stats.totalQueries) ∧
    (isBlank "   " = true ∧
      (process_query stBoth fastGen0 deepGen0 "   " .auto).1.error =
        some .validationError) :=
  ⟨⟨rfl,
    (blank_query_rejected stBoth fastGen0 deepGen0 "" .auto rfl).1,
    (blank_query_rejected stBoth fastGen0 deepGen0 "" .auto rfl).2.2.2.2⟩,
   ⟨rfl,
    (blank_query_rejected stBoth fastGen0 deepGen0 "   " .auto rfl).1⟩⟩

/-- C3: a request addressed to a model that is not Ready fails fast with the
ModelNotReady error: an explicit deep-mode processQuery with the deep tier
not Ready returns ModelNotReady with no tier executed and no response — it
never substitutes the fast tier; and a generate call on a model that is not
loaded (SmolLM3 or SmolVLM2) raises Model not loaded immediately instead of
queueing. -/
theorem not_ready_fails_fast :
    (∀ (st : EngineState) (f g : String → Except String String)
        (text : String),
        isBlank text = false → st.llama31_loaded = false →
        (process_query st f g text .deep).1.error = some .modelNotReady ∧
        (process_query st f g text .deep).1.modelChain = [] ∧
        (process_query st f g text .deep).1.response = none) ∧
    (∀ (s : BaseModelState) (o : GenOutcome), s.is_loaded = false →
        SmolLM3.generate s o = .error "Model not loaded") ∧
    (∀ (s : SmolVLM2State) (o : GenOutcome), s.base.is_loaded = false →
        SmolVLM2.generate s o = .error "Model not loaded") := by
  refine ⟨?_, ?_, ?_⟩
  · intro st f g text hb hd
    simp [process_query, hb, runSingleTier, EngineState.ready, hd]
  · intro s o h
    simp [SmolLM3.generate, h]
  · intro s o h
    simp [SmolVLM2.generate, h]

/-- Witness for C3: a deep-mode query against stFastOnly (deep tier down)
and a generate call on the fresh unloaded SmolLM3 state. -/
theorem not_ready_fails_fast_witness :
    (isBlank "hello there" = false ∧
      stFastOnly.llama31_loaded = false ∧
      (process_query stFastOnly fastGen0 deepGen0 "hello there" .deep).1.error
        = some .modelNotReady ∧
      (process_query stFastOnly fastGen0 deepGen0 "hello there" .deep).1.modelChain
        = []) ∧
    (baseFresh.is_loaded = false ∧
      SmolLM3.generate baseFresh (.ok "hi") = .error "Model not loaded") :=
  ⟨⟨rfl, rfl,
    (not_ready_fails_fast.1 stFastOnly fastGen0 deepGen0 "hello there" rfl rfl).1,
    (not_ready_fails_fast.1 stFastOnly fastGen0 deepGen0 "hello there" rfl rfl).2.1⟩,
   ⟨rfl, not_ready_fails_fast.2.1 baseFresh (.ok "hi") rfl⟩⟩

/-- C5: an error raised during inference on a loaded model is caught at the
tier boundary and surfaced as a structured error: a tier generation error
becomes QueryResult.error (generationFailure) in fast and deep mode, with
the tier recorded as executed; and at the model layer, SmolLM3.generate and
SmolVLM2.generate on a loaded model catch the pipeline exception and return
normally with an Error string, never re-raising. -/
theorem generation_error_contained :
    (∀ (st : EngineState) (f g : String → Except String String)
        (text e : String),
        isBlank text = false → st.smollm3_loaded = true → f text = .error e →
        (process_query st f g text .fast).1.error =
          some (.generationFailure e) ∧
        (process_query st f g text .fast).1.modelChain = [.smollm3] ∧
        (process_query st f g text .fast).1.response = none) ∧
    (∀ (st : EngineState) (f g : String → Except String String)
        (text e : String),
        isBlank text = false → st.llama31_loaded = true → g text = .error e →
        (process_query st f g text .deep).1.error =
          some (.generationFailure e)) ∧
    (∀ (s : BaseModelState) (msg : String), s.is_loaded = true →
        SmolLM3.generate s (.raised msg) = .ok ("Error: " ++ msg)) ∧
    (∀ (s : SmolVLM2State) (msg : String), s.base.is_loaded = true →
        SmolVLM2.generate s (.raised msg) = .ok ("Error: " ++ msg)) := by
  refine ⟨?_, ?_, ?_, ?_⟩
  · intro st f g text e hb hl hf
    simp [process_query, hb, runSingleTier, EngineState.ready, hl, hf,
      tierFields]
  · intro st f g text e hb hl hg
    simp [process_query, hb, runSingleTier, EngineState.ready, hl, hg,
      tierFields]
  · intro s msg h
    simp [SmolLM3.generate, h]
  · intro s msg h
    simp [SmolVLM2.generate, h]

/-- Witness for C5: a failing fast-tier inference surfaces as a structured
generationFailure, and the loaded SmolLM3 state turns a raised inference
error into a normal Error string return. -/
theorem generation_error_contained_witness :
    (isBlank "hello there" = false ∧
      stBoth.smollm3_loaded = true ∧
      failGen0 "hello there" = .error "CUDA out of memory" ∧
      (process_query stBoth failGen0 deepGen0 "hello there" .fast).1.error =
        some (.generationFailure "CUDA out of memory")) ∧
    (baseLoaded.is_loaded = true ∧
      SmolLM3.generate baseLoaded (.raised "boom") = .ok "Error: boom") :=
  ⟨⟨rfl, rfl, rfl,
    (generation_error_contained.1 stBoth failGen0 deepGen0 "hello there"
      "CUDA out of memory" rfl rfl rfl).1⟩,
   ⟨rfl, generation_error_contained.2.2.1 baseLoaded "boom" rfl⟩⟩

/-- C2: an Auto-mode query for which the escalation policy triggers while
the deep tier is unavailable completes successfully via the fast-tier
answer, reports usedEscalation false, and carries the distinct
degradedEscalation flag; an ordinary non-escalated Auto-mode success has
that flag clear, so the two outcomes are distinguishable.  Stats:
totalQueries is incremented, escalationCount is not. -/
theorem auto_degraded_escalation :
    (∀ (st : EngineState) (f g : String → Except String String)
        (text ans : String),
        isBlank text = false →
        should_use_heavy_thinking st.escalation text = true →
        st.llama31_loaded = false → st.smollm3_loaded = true →
        f text = .ok ans →
        (process_query st f g text .auto).1.error = none ∧
        (process_query st f g text .auto).1.response = some ans ∧
        (process_query st f g text .auto).1.usedEscalation = false ∧
        (process_query st f g text .auto).1.degradedEscalation = true ∧
        (process_query st f g text .auto).1.modelChain = [.smollm3] ∧
        (process_query st f g text .auto).2.stats.totalQueries =
          st.stats.totalQueries + 1 ∧
        (process_query st f g text .auto).2.stats.escalationCount =
          st.stats.escalationCount) ∧
    (∀ (st : EngineState) (f g : String → Except String String)
        (text ans : String),
        isBlank text = false →
        should_use_heavy_thinking st.escalation text = false →
        st.smollm3_loaded = true → f text = .ok ans →
        (process_query st f g text .auto).1.degradedEscalation = false ∧
        (process_query st f g text .auto).1.usedEscalation = false ∧
        (process_query st f g text .auto).1.error = none) := by
  constructor
  · intro st f g text ans hb hesc hdeep hfast hf
    simp [process_query, hb, hesc, hdeep, runSingleTier, EngineState.ready,
      hfast, hf, tierFields]
  · intro st f g text ans hb hesc hfast hf
    simp [process_query, hb, hesc, runSingleTier, EngineState.ready,
      hfast, hf, tierFields]

/-- Witness for C2: a marker-bearing query in Auto mode against stFastOnly
(deep tier down) completes on the fast tier with the degraded flag set,
while a short non-escalating query against the same engine leaves it
clear. -/
theorem auto_degraded_escalation_witness :
    (isBlank "please explain in detail why" = false ∧
      should_use_heavy_thinking stFastOnly.escalation
        "please explain in detail why" = true ∧
      stFastOnly.llama31_loaded = false ∧
      (process_query stFastOnly fastGen0 deepGen0
        "please explain in detail why" .auto).1.degradedEscalation = true ∧
      (process_query stFastOnly fastGen0 deepGen0
        "please explain in detail why" .auto).1.usedEscalation = false ∧
      (process_query stFastOnly fastGen0 deepGen0
        "please explain in detail why" .auto).1.response =
          some "quick answer") ∧
    (should_use_heavy_thinking stFastOnly.escalation "hi all" = false ∧
      (process_query stFastOnly fastGen0 deepGen0 "hi all"
        .auto).1.degradedEscalation = false) := by
  have h1 := auto_degraded_escalation.1 stFastOnly fastGen0 deepGen0
    "please explain in detail why" "quick answer" (by decide) (by decide)
    rfl rfl rfl
  have h2 := auto_degraded_escalation.2 stFastOnly fastGen0 deepGen0
    "hi all" "quick answer" (by decide) (by decide) rfl rfl
  exact ⟨⟨by decide, by decide, rfl, h1.2.2.2.1, h1.2.2.1, h1.2.1⟩,
         ⟨by decide, h2.1⟩⟩

/-- C6: in the background loading sequence, failure of the non-primary deep
model (llama31) is non-fatal — loading still finishes with success and the
engine continues on the fast tier — while failure of the primary fast model
(smollm3) aborts loading with a failure emission; moreover a deep-tier load
touches no counters and a fast-mode query result is unaffected by a failed
deep-tier load. -/
theorem deep_load_failure_nonfatal :
    (∀ o : LoadOutcomes, o.smollm3_ok = true → o.llama31_ok = false →
        o.ragRaised = none →
        ModelLoadThread.run o =
          [.progress "Loading SmolLM3-3B (CPU)...",
           .progress "Loading Llama-3.1-8B (GPU)...",
           .progress "Initializing RAG system...",
           .finishedResult true "All systems ready"]) ∧
    (∀ o : LoadOutcomes, o.smollm3_ok = false →
        ModelLoadThread.run o =
          [.progress "Loading SmolLM3-3B (CPU)...",
           .finishedResult false "Failed to load SmolLM3"]) ∧
    (∀ (st : EngineState) (b : Bool),
        (load_model st .llama31 b).2.stats = st.stats) ∧
    (∀ (st : EngineState) (f g : String → Except String String)
        (text : String),
        (process_query (load_model st .llama31 false).2 f g text .fast).1 =
          (process_query st f g text .fast).1) := by
  refine ⟨?_, ?_, ?_, ?_⟩
  · intro o h1 h2 h3
    simp [ModelLoadThread.run, h1, h3]
  · intro o h1
    simp [ModelLoadThread.run, h1]
  · intro st b
    simp [load_model]
  · intro st f g text
    by_cases hb : isBlank text
    · simp [process_query, hb, load_model]
    · simp [process_query, hb, load_model, runSingleTier, EngineState.ready]

/-- Witness for C6: the concrete outcome in which smollm3 loads, llama31
fails and RAG initializes reaches the success emission; a failed smollm3
load emits the failure; the counters of stBoth survive a failed deep load;
and a concrete fast-mode query returns the same result before and after the
failed deep load. -/
theorem deep_load_failure_nonfatal_witness :
    (ModelLoadThread.run ⟨true, false, none⟩ =
      [.progress "Loading SmolLM3-3B (CPU)...",
       .progress "Loading Llama-3.1-8B (GPU)...",
       .progress "Initializing RAG system...",
       .finishedResult true "All systems ready"]) ∧
    (ModelLoadThread.run ⟨false, false, none⟩ =
      [.progress "Loading SmolLM3-3B (CPU)...",
       .finishedResult false "Failed to load SmolLM3"]) ∧
    (load_model stBoth .llama31 false).2.stats = stBoth.stats ∧
    (process_query (load_model stBoth .llama31 false).2 fastGen0 deepGen0
      "hi all" .fast).1 =
      (process_query stBoth fastGen0 deepGen0 "hi all" .fast).1 :=
  ⟨deep_load_failure_nonfatal.1 ⟨true, false, none⟩ rfl rfl rfl,
   deep_load_failure_nonfatal.2.1 ⟨false, false, none⟩ rfl,
   deep_load_failure_nonfatal.2.2.1 stBoth false,
   deep_load_failure_nonfatal.2.2.2 stBoth fastGen0 deepGen0 "hi all"⟩

lemma baseLoad_true_isLoaded (s : BaseModelState)
    (tokOut mdlOut : Except String Nat) (ca : Bool) (co : Except String Nat) :
    (BaseModel.load s tokOut mdlOut ca co).1 = true →
    (BaseModel.load s tokOut mdlOut ca co).2.is_loaded = true := by
  rcases tokOut with e | t
  · simp [BaseModel.load]
  · rcases mdlOut with e | m
    · simp [BaseModel.load]
    · simp [BaseModel.load]

lemma baseLoad_false_isLoaded (s : BaseModelState)
    (tokOut mdlOut : Except String Nat) (ca : Bool) (co : Except String Nat)
    (h : s.is_loaded = false) :
    (BaseModel.load s tokOut mdlOut ca co).1 = false →
    (BaseModel.load s tokOut mdlOut ca co).2.is_loaded = false := by
  rcases tokOut with e | t
  · simp [BaseModel.load, h]
  · rcases mdlOut with e | m
    · simp [BaseModel.load, h]
    · simp [BaseModel.load]

/-- C7 counterexample: on a fresh SmolVLM2 whose base load succeeds
(tokenizer and model come up) but whose processor load raises, load returns
False — an internal exception — while is_loaded has been left True, so the
model is flagged Ready by an unsuccessful load call, against the claim. -/
theorem smolvlm2_load_false_yet_ready :
    (SmolVLM2.load vlmFresh true (.ok 1) (.ok 2) false (.ok 0)
      (.error "processor load failed")).1 = false ∧
    (SmolVLM2.load vlmFresh true (.ok 1) (.ok 2) false (.ok 0)
      (.error "processor load failed")).2.base.is_loaded = true :=
  ⟨rfl, rfl⟩

/-- C7 amended: every load returns a boolean and never raises.  For
BaseModel (hence SmolLM3), starting not Ready, load returns true iff the
call brought the model to Ready, so any internal exception yields false with
the model still not Ready.  SmolVLM2.load returns true only with the model
Ready, but when the processor load fails after a successful base load it
returns false while is_loaded remains true. -/
theorem load_bool_ready_amended :
    (∀ (s : BaseModelState) (tokOut mdlOut : Except String Nat)
        (ca : Bool) (co : Except String Nat),
        s.is_loaded = false →
        ((BaseModel.load s tokOut mdlOut ca co).1 = true ↔
          (BaseModel.load s tokOut mdlOut ca co).2.is_loaded = true)) ∧
    (∀ (s : BaseModelState) (tokOut mdlOut : Except String Nat)
        (ca : Bool) (co : Except String Nat),
        (BaseModel.load s tokOut mdlOut ca co).1 = true →
        (BaseModel.load s tokOut mdlOut ca co).2.is_loaded = true) ∧
    (∀ (s : SmolVLM2State) (imp : Bool) (tokOut mdlOut : Except String Nat)
        (ca : Bool) (co pr : Except String Nat),
        (SmolVLM2.load s imp tokOut mdlOut ca co pr).1 = true →
        (SmolVLM2.load s imp tokOut mdlOut ca co pr).2.base.is_loaded =
          true) ∧
    (∀ (s : SmolVLM2State) (t m : Nat) (ca : Bool) (co : Except String Nat)
        (e : String),
        (SmolVLM2.load s true (.ok t) (.ok m) ca co (.error e)).1 = false ∧
        (SmolVLM2.load s true (.ok t) (.ok m) ca co
          (.error e)).2.base.is_loaded = true) := by
  refine ⟨?_, ?_, ?_, ?_⟩
  · intro s tokOut mdlOut ca co h
    by_cases hr : (BaseModel.load s tokOut mdlOut ca co).1 = true
    · simp [hr, baseLoad_true_isLoaded s tokOut mdlOut ca co hr]
    · have hf : (BaseModel.load s tokOut mdlOut ca co).1 = false :=
        Bool.eq_false_iff.mpr hr
      simp [hf, baseLoad_false_isLoaded s tokOut mdlOut ca co h hf]
  · exact baseLoad_true_isLoaded
  · intro s imp tokOut mdlOut ca co pr
    cases imp with
    | false => simp [SmolVLM2.load]
    | true =>
      rcases hR : BaseModel.load s.base tokOut mdlOut ca co with ⟨b1, bs⟩
      cases b1 with
      | false => simp [SmolVLM2.load, hR]
      | true =>
        have hload : bs.is_loaded = true := by
          have h2 := baseLoad_true_isLoaded s.base tokOut mdlOut ca co
          rw [hR] at h2
          exact h2 rfl
        rcases pr with e | p
        · simp [SmolVLM2.load, hR]
        · intro _
          simp [SmolVLM2.load, hR, hload]
  · intro s t m ca co e
    have hR : (BaseModel.load s.base (.ok t) (.ok m) ca co).1 = true := by
      cases ca <;> simp [BaseModel.load]
    constructor
    · rcases hP : BaseModel.load s.base (.ok t) (.ok m) ca co with ⟨b1, bs⟩
      rw [hP] at hR
      subst hR
      simp [SmolVLM2.load, hP]
    · rcases hP : BaseModel.load s.base (.ok t) (.ok m) ca co with ⟨b1, bs⟩
      rw [hP] at hR
      subst hR
      have hload : bs.is_loaded = true := by
        have h2 := baseLoad_true_isLoaded s.base (.ok t) (.ok m) ca co
        rw [hP] at h2
        exact h2 rfl
      simp [SmolVLM2.load, hP, hload]

/-- Witness for C7 amended, at the fresh BaseModel state with a successful
load outcome and at the SmolVLM2 processor-failure outcome. -/
theorem load_bool_ready_amended_witness :
    baseFresh.is_loaded = false ∧
    ((BaseModel.load baseFresh (.ok 1) (.ok 2) false (.ok 0)).1 = true ↔
      (BaseModel.load baseFresh (.ok 1) (.ok 2) false
        (.ok 0)).2.is_loaded = true) ∧
    (SmolVLM2.load vlmFresh true (.ok 1) (.ok 2) false (.ok 0)
      (.error "x")).1 = false :=
  ⟨rfl,
   load_bool_ready_amended.1 baseFresh (.ok 1) (.ok 2) false (.ok 0) rfl,
   (load_bool_ready_amended.2.2.2 vlmFresh 1 2 false (.ok 0) "x").1⟩
